import Mathlib

/-!
Shallow embedding of pyArango/document.py: the Document and Edge object
mappers, their mutation tracking (store / patch store / modified flag) and
the REST operations save, forceSave, saveCopy, patch, delete, and the Edge
operations save and links. HTTP exchanges are modelled by passing the
response the server would return; every operation also reports the requests
it issued, so "no HTTP call" properties are statements about that list.
Exceptions are modelled as an `Option PyErr` alongside the state at the
moment of the raise (Python keeps mutations made before an exception).
-/

namespace PyArango

/-- A JSON-compatible field value; `jnull` doubles as Python's None. -/
inductive JValue where
  | jnull
  | jbool (b : Bool)
  | jnum (n : Int)
  | jstr (s : String)
  deriving DecidableEq, Repr

/-- A Python dict as an insertion-ordered association list. Dicts the
program receives have pairwise distinct keys; theorems that need this take
it as a hypothesis. -/
abbrev Store : Type := List (String × JValue)

/-- d[k] as a lookup returning `none` when the key is absent. -/
def storeGet : Store → String → Option JValue
  | [], _ => none
  | (k2, v) :: rest, k => if k = k2 then some v else storeGet rest k

/-- d[k] = v: overwrite in place, or append a new entry (dict order). -/
def storeSet : Store → String → JValue → Store
  | [], k, v => [(k, v)]
  | (k2, v2) :: rest, k, v =>
      if k = k2 then (k2, v) :: rest else (k2, v2) :: storeSet rest k v

/-- del d[k]: drop the entry with key k. -/
def storeDel : Store → String → Store
  | [], _ => []
  | (k2, v2) :: rest, k => if k = k2 then rest else (k2, v2) :: storeDel rest k

/-- d.update(l): set every entry of l into s, in order. -/
def storeUpdate (s : Store) (l : Store) : Store :=
  l.foldl (fun acc kv => storeSet acc kv.1 kv.2) s

/-- The keys of a dict, in order. -/
def storeKeys (s : Store) : List String :=
  s.map Prod.fst

/-- Python str() of a value, as used in URL interpolation. -/
def pyStr : JValue → String
  | .jnull => "None"
  | .jbool true => "True"
  | .jbool false => "False"
  | .jnum n => toString n
  | .jstr s => s

/-- Python truthiness of a value. -/
def truthy : JValue → Bool
  | .jnull => false
  | .jbool b => b
  | .jnum n => n != 0
  | .jstr s => s != ""

/-- The exceptions the module can raise, by Python class. -/
inductive PyErr where
  | valueError (msg : String)
  | keyError (msg : String)
  | typeError (msg : String)
  | nameError (msg : String)
  | attributeError (msg : String)
  | creationError (msg : String)
  | updateError (msg : String)
  | deletionError (msg : String)
  | validationError (msg : String)
  deriving DecidableEq, Repr

/-- The Collection collaborator, as the module consumes it: a name, the
documents endpoint URL, the validation configuration, and the two
validators. The validators are not part of document.py; they are modelled
from the spec as arbitrary functions that either accept or raise. -/
structure Collection where
  name : String
  documentsURL : String
  on_set : Bool
  on_save : Bool
  allow_foreign_fields : Bool
  validateField : String → JValue → Except PyErr Unit
  validateDct : Store → Except PyErr Unit

/-- The mutable state of a Document instance. The collection reference is
passed to each operation instead of being stored (it never changes across
the operations modelled here). -/
structure Doc where
  documentsURL : String
  _store : Store
  _patchStore : Store
  _id : JValue
  _rev : JValue
  _key : JValue
  URL : Option String
  modified : Bool
  deriving DecidableEq, Repr

inductive Verb where
  | post
  | put
  | patchVerb
  | deleteVerb
  deriving DecidableEq, Repr

/-- One HTTP request as issued by the module: verb, target URL, query
parameters and JSON payload. -/
structure HttpReq where
  verb : Verb
  url : String
  params : Store
  payload : Store
  deriving DecidableEq, Repr

/-- The server's answer to a request: the status code and the JSON body. -/
structure HttpResp where
  status : Nat
  body : Store
  deriving DecidableEq, Repr

/-- Document.setPrivates: pull _id, _rev and _key out of fieldDict in that
order, deleting each from the dict and deriving URL from _id; a KeyError at
any point resets all four attributes to None while the deletions already
made stay (Python does not roll the dict back). Returns the new state and
the mutated dict. -/
def setPrivates (d : Doc) (fieldDict : Store) : Doc × Store :=
  match storeGet fieldDict "_id" with
  | none =>
      ({ d with _id := .jnull, _rev := .jnull, _key := .jnull, URL := none }, fieldDict)
  | some vid =>
      match storeGet (storeDel fieldDict "_id") "_rev" with
      | none =>
          ({ d with _id := .jnull, _rev := .jnull, _key := .jnull, URL := none },
           storeDel fieldDict "_id")
      | some vrev =>
          match storeGet (storeDel (storeDel fieldDict "_id") "_rev") "_key" with
          | none =>
              ({ d with _id := .jnull, _rev := .jnull, _key := .jnull, URL := none },
               storeDel (storeDel fieldDict "_id") "_rev")
          | some vkey =>
              ({ d with _id := vid, _rev := vrev, _key := vkey,
                        URL := some (d.documentsURL ++ "/" ++ pyStr vid) },
               storeDel (storeDel (storeDel fieldDict "_id") "_rev") "_key")

/-- Document.__setitem__: optional field validation, write to the store,
mirror into the patch store when the document has a URL, mark modified. A
validation error leaves the state unchanged. -/
def setitem (c : Collection) (d : Doc) (k : String) (v : JValue) : Doc × Option PyErr :=
  let write : Doc :=
    { d with
      _store := storeSet d._store k v
      _patchStore := if d.URL.isSome then storeSet d._patchStore k v else d._patchStore
      modified := true }
  if c.on_set then
    match c.validateField k v with
    | .error e => (d, some e)
    | .ok _ => (write, none)
  else (write, none)

/-- The loop of Document.set under on_set: each remaining field is assigned
through __setitem__; the first validation error propagates, keeping the
fields assigned before it. -/
def setFieldsValidated (c : Collection) : Doc → List (String × JValue) → Doc × Option PyErr
  | d, [] => (d, none)
  | d, (k, v) :: rest =>
      match setitem c d k v with
      | (d2, none) => setFieldsValidated c d2 rest
      | (d2, some e) => (d2, some e)

/-- Document.set: setPrivates, then either per-field validated assignment
(on_set) or a plain dict update of the store. Returns the new state, the
caller's mutated dict, and the propagated error if any. -/
def set (c : Collection) (d : Doc) (fieldDict : Store) : Doc × Store × Option PyErr :=
  let p := setPrivates d fieldDict
  if c.on_set then
    let r := setFieldsValidated c p.1 p.2
    (r.1, p.2, r.2)
  else
    ({ p.1 with _store := storeUpdate p.1._store p.2 }, p.2, none)

/-- Document.reset: rebind the collection data, clear both stores, set from
jsonFieldInit, then mark modified (not reached if set raised). -/
def reset (c : Collection) (d : Doc) (jsonFieldInit : Store) : Doc × Store × Option PyErr :=
  let r := set c { d with documentsURL := c.documentsURL, _store := [], _patchStore := [] }
             jsonFieldInit
  match r.2.2 with
  | some e => (r.1, r.2.1, some e)
  | none => ({ r.1 with modified := true }, r.2.1, none)

/-- Document.__init__: just reset. The placeholder attribute values stand
for not-yet-assigned slots; reset always assigns them before any use. -/
def newDoc (c : Collection) (jsonFieldInit : Store) : Doc × Store × Option PyErr :=
  reset c
    { documentsURL := c.documentsURL, _store := [], _patchStore := [],
      _id := .jnull, _rev := .jnull, _key := .jnull, URL := none, modified := false }
    jsonFieldInit

/-- Document.validate as defined at line 130: its signature has only the
patch parameter; it delegates to the collection's dict validator over the
full store or the patch store. -/
def validate (c : Collection) (d : Doc) (patchFlag : Bool) : Except PyErr Unit :=
  if patchFlag then c.validateDct d._patchStore else c.validateDct d._store

/-- save (line 55) and patch (line 100) invoke self.validate(patch = ...,
logErrors = False), but validate's signature takes no logErrors parameter:
in Python the call raises TypeError before validate's body runs. -/
def validateCallError : PyErr :=
  .typeError "validate() got an unexpected keyword argument 'logErrors'"

/-- The success test of save and patch: (status == 201 or 202) and not
data['error']. Python short-circuits the and, so data['error'] is only read
when the status matches, raising KeyError if it is then absent. -/
def respOk201 (resp : HttpResp) : Except PyErr Bool :=
  if resp.status == 201 || resp.status == 202 then
    match storeGet resp.body "error" with
    | none => .error (.keyError "error")
    | some v => .ok (!truthy v)
  else .ok false

/-- data['errorMessage'] as Python reads it on the failure paths. -/
def errorMessageOf (resp : HttpResp) : Except PyErr JValue :=
  match storeGet resp.body "errorMessage" with
  | none => .error (.keyError "errorMessage")
  | some v => .ok v

/-- Document.save, the HTTP exchange supplied as the response the server
would return. Returns the state at exit (unchanged on an exception), the
raised exception if any, and the requests issued. -/
def save (c : Collection) (d : Doc) (docArgs : Store) (resp : HttpResp) :
    Doc × Option PyErr × List HttpReq :=
  if d.modified then
    if c.on_save then (d, some validateCallError, [])
    else
      let params := storeSet docArgs "collection" (.jstr c.name)
      match d.URL with
      | none =>
          let req : HttpReq := ⟨.post, d.documentsURL, params, d._store⟩
          match respOk201 resp with
          | .error e => (d, some e, [req])
          | .ok true =>
              let p := setPrivates d resp.body
              ({ p.1 with modified := false }, none, [req])
          | .ok false =>
              match errorMessageOf resp with
              | .error e => (d, some e, [req])
              | .ok msg => (d, some (.creationError (pyStr msg)), [req])
      | some url =>
          let req : HttpReq := ⟨.put, url, params, d._store⟩
          match respOk201 resp with
          | .error e => (d, some e, [req])
          | .ok true =>
              match storeGet resp.body "_rev" with
              | none => (d, some (.keyError "_rev"), [req])
              | some rv => ({ d with _rev := rv, modified := false }, none, [req])
          | .ok false =>
              match errorMessageOf resp with
              | .error e => (d, some e, [req])
              | .ok msg => (d, some (.updateError (pyStr msg)), [req])
  else (d, none, [])

/-- Document.forceSave: mark modified, then save. -/
def forceSave (c : Collection) (d : Doc) (docArgs : Store) (resp : HttpResp) :
    Doc × Option PyErr × List HttpReq :=
  save c { d with modified := true } docArgs resp

/-- Document.saveCopy: remember the old key, reset to a fresh unsaved state
(the jsonFieldInit default is the empty dict), save as a new resource, and
return (old _key, new _key). The pair is `none` when save raised. -/
def saveCopy (c : Collection) (d : Doc) (resp : HttpResp) :
    Doc × Option PyErr × List HttpReq × Option (JValue × JValue) :=
  let r := reset c d []
  match r.2.2 with
  | some e => (r.1, some e, [], none)
  | none =>
      let s := save c r.1 [] resp
      match s.2.1 with
      | some e => (s.1, some e, s.2.2, none)
      | none => (s.1, none, s.2.2, some (d._key, s.1._key))

/-- Document.patch: the (faulty) validate call when on_save, then the
unsaved-document check, then a PATCH of the patch store when non-empty. -/
def patch (c : Collection) (d : Doc) (keepNull : Bool) (docArgs : Store)
    (resp : HttpResp) : Doc × Option PyErr × List HttpReq :=
  if c.on_save then (d, some validateCallError, [])
  else
    match d.URL with
    | none =>
        (d, some (.valueError "Cannot patch a document that was not previously saved"), [])
    | some url =>
        if 0 < d._patchStore.length then
          let params := storeSet (storeSet docArgs "collection" (.jstr c.name))
                          "keepNull" (.jbool keepNull)
          let req : HttpReq := ⟨.patchVerb, url, params, d._patchStore⟩
          match respOk201 resp with
          | .error e => (d, some e, [req])
          | .ok true =>
              match storeGet resp.body "_rev" with
              | none => (d, some (.keyError "_rev"), [req])
              | some rv => ({ d with _rev := rv, modified := false }, none, [req])
          | .ok false =>
              match errorMessageOf resp with
              | .error e => (d, some e, [req])
              | .ok msg => (d, some (.updateError (pyStr msg)), [req])
        else (d, none, [])

/-- The failure test of delete: (status != 200 and status != 202) or
data['error']; the or short-circuits, so data['error'] is only read when
the status is a success status. -/
def deleteFailed (resp : HttpResp) : Except PyErr Bool :=
  if resp.status != 200 && resp.status != 202 then .ok true
  else
    match storeGet resp.body "error" with
    | none => .error (.keyError "error")
    | some v => .ok (truthy v)

/-- Document.delete: refuse an unsaved document, DELETE the resource, raise
a DeletionError on failure, and on success reset to a fresh unsaved state
and mark modified. -/
def delete (c : Collection) (d : Doc) (resp : HttpResp) :
    Doc × Option PyErr × List HttpReq :=
  match d.URL with
  | none => (d, some (.deletionError "Can't delete a document that was not saved"), [])
  | some url =>
      let req : HttpReq := ⟨.deleteVerb, url, [], []⟩
      match deleteFailed resp with
      | .error e => (d, some e, [req])
      | .ok true =>
          match errorMessageOf resp with
          | .error e => (d, some e, [req])
          | .ok msg => (d, some (.deletionError (pyStr msg)), [req])
      | .ok false =>
          ({ (reset c d []).1 with modified := true }, none, [req])

/-- The mutable state of an Edge instance: a Document plus the endpoint
references _from and _to. -/
structure EdgeDoc where
  doc : Doc
  _from : JValue
  _to : JValue
  deriving DecidableEq, Repr

/-- Edge.setPrivates: pull _from and _to out of the dict without deleting
them (both reset to None when either is missing), then Document.setPrivates
on the same dict. -/
def edgeSetPrivates (e : EdgeDoc) (fieldDict : Store) : EdgeDoc × Store :=
  let e1 :=
    match storeGet fieldDict "_from", storeGet fieldDict "_to" with
    | some vf, some vt => { e with _from := vf, _to := vt }
    | _, _ => { e with _from := .jnull, _to := .jnull }
  let p := setPrivates e1.doc fieldDict
  ({ e1 with doc := p.1 }, p.2)

/-- Document.set as executed on an Edge instance: dynamic dispatch sends the
setPrivates call to Edge.setPrivates; the rest is Document.set. -/
def edgeSet (c : Collection) (e : EdgeDoc) (fieldDict : Store) :
    EdgeDoc × Store × Option PyErr :=
  let p := edgeSetPrivates e fieldDict
  if c.on_set then
    let r := setFieldsValidated c p.1.doc p.2
    ({ p.1 with doc := r.1 }, p.2, r.2)
  else
    ({ p.1 with doc := { p.1.doc with _store := storeUpdate p.1.doc._store p.2 } },
     p.2, none)

/-- Edge.reset, which is Document.reset with Edge dispatch. -/
def edgeReset (c : Collection) (e : EdgeDoc) (jsonFieldInit : Store) :
    EdgeDoc × Store × Option PyErr :=
  let r := edgeSet c
    { e with
      doc := { e.doc with documentsURL := c.documentsURL, _store := [], _patchStore := [] } }
    jsonFieldInit
  match r.2.2 with
  | some er => (r.1, r.2.1, some er)
  | none => ({ r.1 with doc := { r.1.doc with modified := true } }, r.2.1, none)

/-- A value passed as an endpoint argument to Edge.save: an exact Document
instance, an Edge instance, a string, or None (the default). -/
inductive Vertice where
  | docV (d : Doc)
  | edgeV (e : EdgeDoc)
  | strV (s : String)
  | noneV
  deriving Repr

def Vertice.isNoneV : Vertice → Bool
  | .noneV => true
  | _ => false

/-- Endpoint resolution in Edge.save: the test fromVertice.__class__ is
Document accepts only exact Document instances and reads their _id; every
other value falls to the elif, whose types.StringType lookup raises
NameError because document.py never imports the types module (so neither
strings nor None nor Edge instances ever reach the final ValueError). -/
def resolveVertice : Vertice → Except PyErr JValue
  | .docV d => .ok d._id
  | _ => .error (.nameError "name 'types' is not defined")

/-- Document.save as executed on an Edge instance: identical to save except
that a successful create applies Edge.setPrivates to the response body. -/
def edgeDocSave (c : Collection) (e : EdgeDoc) (docArgs : Store) (resp : HttpResp) :
    EdgeDoc × Option PyErr × List HttpReq :=
  if e.doc.modified then
    if c.on_save then (e, some validateCallError, [])
    else
      let params := storeSet docArgs "collection" (.jstr c.name)
      match e.doc.URL with
      | none =>
          let req : HttpReq := ⟨.post, e.doc.documentsURL, params, e.doc._store⟩
          match respOk201 resp with
          | .error er => (e, some er, [req])
          | .ok true =>
              let p := edgeSetPrivates e resp.body
              ({ p.1 with doc := { p.1.doc with modified := false } }, none, [req])
          | .ok false =>
              match errorMessageOf resp with
              | .error er => (e, some er, [req])
              | .ok msg => (e, some (.creationError (pyStr msg)), [req])
      | some url =>
          let req : HttpReq := ⟨.put, url, params, e.doc._store⟩
          match respOk201 resp with
          | .error er => (e, some er, [req])
          | .ok true =>
              match storeGet resp.body "_rev" with
              | none => (e, some (.keyError "_rev"), [req])
              | some rv =>
                  ({ e with doc := { e.doc with _rev := rv, modified := false } },
                   none, [req])
          | .ok false =>
              match errorMessageOf resp with
              | .error er => (e, some er, [req])
              | .ok msg => (e, some (.updateError (pyStr msg)), [req])
  else (e, none, [])

/-- Edge.save: the first-save guard (both endpoints required while URL is
None), endpoint resolution, endpoint bookkeeping in the request arguments
and on the object, then the base save. -/
def edgeSave (c : Collection) (e : EdgeDoc) (fromVertice toVertice : Vertice)
    (edgeArgs : Store) (resp : HttpResp) : EdgeDoc × Option PyErr × List HttpReq :=
  if e.doc.URL.isNone && (fromVertice.isNoneV || toVertice.isNoneV) then
    (e, some (.valueError
      "The first time you save an Edge you must specify the 'from' and 'to' vertices"), [])
  else
    match resolveVertice fromVertice with
    | .error er => (e, some er, [])
    | .ok fromId =>
        match resolveVertice toVertice with
        | .error er => (e, some er, [])
        | .ok toId =>
            let args2 := storeSet (storeSet edgeArgs "from" fromId) "to" toId
            edgeDocSave c { e with _from := fromId, _to := toId } args2 resp

/-- Edge.links: only for first saves; raises before touching either vertex
when the edge is already saved, else saves both vertices and then calls
Edge.save with them. Returns the edge and both vertex states at exit, the
error if any, and every request issued. -/
def links (c : Collection) (e : EdgeDoc)
    (cf : Collection) (fromVertice : Doc) (respFrom : HttpResp)
    (ct : Collection) (toVertice : Doc) (respTo : HttpResp)
    (edgeArgs : Store) (respEdge : HttpResp) :
    EdgeDoc × Doc × Doc × Option PyErr × List HttpReq :=
  match e.doc.URL with
  | some _ =>
      (e, fromVertice, toVertice,
       some (.attributeError
         "It appears that the edge has already been saved. You can now use save() and patch()"),
       [])
  | none =>
      let f := save cf fromVertice [] respFrom
      match f.2.1 with
      | some er => (e, f.1, toVertice, some er, f.2.2)
      | none =>
          let t := save ct toVertice [] respTo
          match t.2.1 with
          | some er => (e, f.1, t.1, some er, f.2.2 ++ t.2.2)
          | none =>
              let s := edgeSave c e (.docV f.1) (.docV t.1) edgeArgs respEdge
              (s.1, f.1, t.1, s.2.1, f.2.2 ++ t.2.2 ++ s.2.2)

/-! ### Dictionary lemmas -/

theorem storeGet_storeSet_self (s : Store) (k : String) (v : JValue) :
    storeGet (storeSet s k v) k = some v := by
  induction s with
  | nil => simp [storeSet, storeGet]
  | cons kv rest ih =>
      obtain ⟨k2, v2⟩ := kv
      by_cases h : k = k2 <;> simp [storeSet, storeGet, h, ih]

theorem storeGet_storeSet_ne (s : Store) (k k2 : String) (v : JValue) (h : k ≠ k2) :
    storeGet (storeSet s k2 v) k = storeGet s k := by
  induction s with
  | nil => simp [storeSet, storeGet, h]
  | cons kv rest ih =>
      obtain ⟨k3, v3⟩ := kv
      by_cases h2 : k2 = k3
      · subst h2; simp [storeSet, storeGet, h]
      · by_cases h3 : k = k3 <;> simp [storeSet, storeGet, h2, h3, ih]

theorem storeGet_storeDel_ne (s : Store) (k k2 : String) (h : k ≠ k2) :
    storeGet (storeDel s k2) k = storeGet s k := by
  induction s with
  | nil => simp [storeDel]
  | cons kv rest ih =>
      obtain ⟨k3, v3⟩ := kv
      by_cases h2 : k2 = k3
      · subst h2; simp [storeDel, storeGet, h]
      · by_cases h3 : k = k3 <;> simp [storeDel, storeGet, h2, h3, ih]

theorem storeDel_sublist (s : Store) (k : String) : (storeDel s k).Sublist s := by
  induction s with
  | nil => simp [storeDel]
  | cons kv rest ih =>
      obtain ⟨k2, v2⟩ := kv
      by_cases h : k = k2
      · simp [storeDel, h]
      · simpa [storeDel, h] using ih.cons₂ (k2, v2)

theorem storeGet_eq_none_of_not_mem_keys (s : Store) (k : String)
    (h : k ∉ storeKeys s) : storeGet s k = none := by
  induction s with
  | nil => simp [storeGet]
  | cons kv rest ih =>
      obtain ⟨k2, v2⟩ := kv
      simp [storeKeys] at h
      simp [storeGet, h.1, ih (by simp [storeKeys, h.2])]

theorem not_mem_keys_storeDel (s : Store) (k : String)
    (h : (storeKeys s).Nodup) : k ∉ storeKeys (storeDel s k) := by
  induction s with
  | nil => simp [storeDel, storeKeys]
  | cons kv rest ih =>
      obtain ⟨k2, v2⟩ := kv
      simp [storeKeys] at h
      by_cases h2 : k = k2
      · subst h2; simpa [storeDel, storeKeys] using h.1
      · simpa [storeDel, storeKeys, h2] using ih h.2

theorem nodup_keys_storeDel (s : Store) (k : String)
    (h : (storeKeys s).Nodup) : (storeKeys (storeDel s k)).Nodup :=
  ((storeDel_sublist s k).map Prod.fst).nodup h

theorem storeGet_storeUpdate_not_mem (s l : Store) (k : String)
    (h : k ∉ storeKeys l) : storeGet (storeUpdate s l) k = storeGet s k := by
  induction l generalizing s with
  | nil => simp [storeUpdate]
  | cons kv rest ih =>
      obtain ⟨k2, v2⟩ := kv
      simp [storeKeys] at h
      have step : storeUpdate s ((k2, v2) :: rest) = storeUpdate (storeSet s k2 v2) rest := rfl
      rw [step, ih (storeSet s k2 v2) (by simp [storeKeys, h.2]),
        storeGet_storeSet_ne s k k2 v2 h.1]

theorem storeGet_storeUpdate_mem (s l : Store) (k : String) (v : JValue)
    (hnd : (storeKeys l).Nodup) (hget : storeGet l k = some v) :
    storeGet (storeUpdate s l) k = some v := by
  induction l generalizing s with
  | nil => simp [storeGet] at hget
  | cons kv rest ih =>
      obtain ⟨k2, v2⟩ := kv
      simp [storeKeys] at hnd
      have step : storeUpdate s ((k2, v2) :: rest) = storeUpdate (storeSet s k2 v2) rest := rfl
      by_cases h2 : k = k2
      · subst h2
        simp [storeGet] at hget
        subst hget
        rw [step, storeGet_storeUpdate_not_mem _ _ _ (by simpa [storeKeys] using hnd.1),
          storeGet_storeSet_self]
      · simp [storeGet, h2] at hget
        rw [step, ih _ hnd.2 hget]

/-! ### Concrete fixtures for witnesses and counterexamples -/

/-- A fully permissive collection: no validation anywhere. -/
def collOff : Collection :=
  { name := "users", documentsURL := "http://db/_api/document",
    on_set := false, on_save := false, allow_foreign_fields := true,
    validateField := fun _ _ => .ok (), validateDct := fun _ => .ok () }

/-- The permissive collection with on_set validation enabled (the field
validator accepts everything). -/
def collOnSet : Collection := { collOff with on_set := true }

/-- The permissive collection with on_save validation enabled. -/
def collOnSave : Collection := { collOff with on_save := true }

/-- A never-saved document holding one field. -/
def docNew : Doc :=
  { documentsURL := "http://db/_api/document", _store := [("name", .jstr "a")],
    _patchStore := [], _id := .jnull, _rev := .jnull, _key := .jnull,
    URL := none, modified := true }

/-- A persisted, unmodified document, as it stands after a successful save. -/
def docSaved : Doc :=
  { documentsURL := "http://db/_api/document", _store := [("name", .jstr "a")],
    _patchStore := [], _id := .jstr "users/1", _rev := .jstr "r1", _key := .jstr "1",
    URL := some "http://db/_api/document/users/1", modified := false }

/-- A successful create/update response. -/
def respCreated : HttpResp :=
  { status := 201,
    body := [("error", .jbool false), ("_id", .jstr "users/2"),
             ("_rev", .jstr "r2"), ("_key", .jstr "2")] }

/-- A successful delete response. -/
def respDeleted : HttpResp :=
  { status := 200, body := [("error", .jbool false)] }

/-- A failing response carrying the server's error report. -/
def respFailed : HttpResp :=
  { status := 409,
    body := [("error", .jbool true), ("errorMessage", .jstr "conflict")] }

/-! ### C1: field assignment -/

theorem setitem_unsaved_frame (c : Collection) (d : Doc) (k : String) (v : JValue)
    (h : d.URL = none) :
    (setitem c d k v).1.URL = none ∧ (setitem c d k v).1._patchStore = d._patchStore := by
  unfold setitem
  cases hc : c.on_set <;> simp [hc, h]
  cases hv : c.validateField k v <;> simp [hv, h]

theorem setFieldsValidated_unsaved_frame (c : Collection) (d : Doc)
    (kvs : List (String × JValue)) (h : d.URL = none) :
    (setFieldsValidated c d kvs).1.URL = none ∧
    (setFieldsValidated c d kvs).1._patchStore = d._patchStore := by
  induction kvs generalizing d with
  | nil => simp [setFieldsValidated, h]
  | cons kv rest ih =>
      obtain ⟨k, v⟩ := kv
      have hs := setitem_unsaved_frame c d k v h
      cases he : setitem c d k v with
      | mk d2 err =>
        rw [he] at hs
        cases err with
        | none =>
            have ihd := ih d2 hs.1
            simp only [setFieldsValidated, he]
            exact ⟨ihd.1, ihd.2.trans hs.2⟩
        | some e => simpa [setFieldsValidated, he] using hs

/-- C1: a field assignment that completes always sets modified and writes
the value into the store; it mirrors the assignment into the patch store
exactly when the document is already persisted (URL set), leaving the patch
store untouched otherwise; and no sequence of field assignments on a
never-saved document ever makes the patch store non-empty. -/
theorem C1_setitem_marks_modified_and_mirrors_iff_persisted
    (c : Collection) (d d2 : Doc) (k : String) (v : JValue)
    (kvs : List (String × JValue))
    (h : setitem c d k v = (d2, none)) :
    d2.modified = true ∧
    storeGet d2._store k = some v ∧
    (d.URL.isSome = true → storeGet d2._patchStore k = some v) ∧
    (d.URL = none → d2._patchStore = d._patchStore) ∧
    (d.URL = none → d._patchStore = [] →
      (setFieldsValidated c d kvs).1._patchStore = []) := by
  have hseq : d.URL = none → d._patchStore = [] →
      (setFieldsValidated c d kvs).1._patchStore = [] := by
    intro hu hp
    rw [(setFieldsValidated_unsaved_frame c d kvs hu).2, hp]
  have hw : d2 =
      { d with
        _store := storeSet d._store k v
        _patchStore := if d.URL.isSome then storeSet d._patchStore k v else d._patchStore
        modified := true } := by
    unfold setitem at h
    cases hc : c.on_set
    · simp [hc] at h
      exact h.symm
    · simp [hc] at h
      cases hv : c.validateField k v <;> rw [hv] at h <;> simp at h
      exact h.symm
  subst hw
  refine ⟨rfl, storeGet_storeSet_self _ _ _, ?_, ?_, hseq⟩
  · intro hu; simp [hu, storeGet_storeSet_self]
  · intro hu; simp [hu]

/-- C1 witness: a concrete assignment on a persisted document in a
collection with field validation enabled, and a concrete assignment
sequence on a never-saved document. -/
theorem C1_witness :
    (setitem collOnSet docSaved "age" (JValue.jnum 5)).1.modified = true ∧
    storeGet (setitem collOnSet docSaved "age" (JValue.jnum 5)).1._store "age" =
      some (JValue.jnum 5) ∧
    (docSaved.URL.isSome = true →
      storeGet (setitem collOnSet docSaved "age" (JValue.jnum 5)).1._patchStore "age" =
        some (JValue.jnum 5)) ∧
    (docSaved.URL = none →
      (setitem collOnSet docSaved "age" (JValue.jnum 5)).1._patchStore =
        docSaved._patchStore) ∧
    (docSaved.URL = none → docSaved._patchStore = [] →
      (setFieldsValidated collOnSet docSaved
        [("age", JValue.jnum 5), ("name", JValue.jstr "b")]).1._patchStore = []) :=
  C1_setitem_marks_modified_and_mirrors_iff_persisted collOnSet docSaved
    (setitem collOnSet docSaved "age" (JValue.jnum 5)).1 "age" (JValue.jnum 5)
    [("age", JValue.jnum 5), ("name", JValue.jstr "b")] (by decide)

/-! ### C2: patch on a never-saved document -/

/-- C2 (amended): patch on a never-saved document always fails before any
HTTP request and leaves the state unchanged; with on_save disabled the
error is the not-previously-saved ValueError, while with on_save enabled
the faulty validate invocation raises a TypeError first. -/
theorem C2_patch_unsaved_fails_without_http
    (c : Collection) (d : Doc) (keepNull : Bool) (docArgs : Store) (resp : HttpResp)
    (h : d.URL = none) :
    (patch c d keepNull docArgs resp).2.2 = [] ∧
    (patch c d keepNull docArgs resp).1 = d ∧
    (c.on_save = false →
      (patch c d keepNull docArgs resp).2.1 =
        some (.valueError "Cannot patch a document that was not previously saved")) ∧
    (c.on_save = true →
      (patch c d keepNull docArgs resp).2.1 = some validateCallError) := by
  unfold patch
  cases hs : c.on_save <;> simp [hs, h]

/-- C2 witness: concrete never-saved document. -/
theorem C2_witness :
    (patch collOff docNew true [] respFailed).2.2 = [] ∧
    (patch collOff docNew true [] respFailed).1 = docNew ∧
    (collOff.on_save = false →
      (patch collOff docNew true [] respFailed).2.1 =
        some (.valueError "Cannot patch a document that was not previously saved")) ∧
    (collOff.on_save = true →
      (patch collOff docNew true [] respFailed).2.1 = some validateCallError) :=
  C2_patch_unsaved_fails_without_http collOff docNew true [] respFailed (by decide)

/-- C2 counterexample: with on_save enabled, patch on a never-saved
document raises the TypeError coming from the misinvoked validate call, not
the not-previously-saved ValueError the claim promises for every validation
configuration. -/
theorem C2_counterexample_on_save_typeerror :
    (patch collOnSave docNew true [] respFailed).2.1 = some validateCallError ∧
    (patch collOnSave docNew true [] respFailed).2.1 ≠
      some (PyErr.valueError "Cannot patch a document that was not previously saved") := by
  decide

/-! ### C3: save-time validation -/

/-- C3: whenever the document is modified and on_save validation is
enabled, save raises the TypeError produced by invoking validate with the
logErrors keyword its signature does not accept; no validation of the store
and no HTTP request ever happens, and the state is unchanged. -/
theorem C3_save_on_save_raises_typeerror
    (c : Collection) (d : Doc) (docArgs : Store) (resp : HttpResp)
    (hm : d.modified = true) (hv : c.on_save = true) :
    save c d docArgs resp = (d, some validateCallError, []) := by
  unfold save
  simp [hm, hv]

/-- C3 witness: a concrete modified document in a collection with on_save
validation enabled. -/
theorem C3_witness :
    save collOnSave docNew [] respCreated = (docNew, some validateCallError, []) :=
  C3_save_on_save_raises_typeerror collOnSave docNew [] respCreated (by decide) (by decide)

/-! ### C4: Edge.save endpoint handling -/

/-- A never-saved edge. -/
def edgeNew : EdgeDoc :=
  { doc := { docNew with _store := [] }, _from := .jnull, _to := .jnull }

/-- A previously saved edge with stored endpoint ids. -/
def edgeSaved : EdgeDoc :=
  { doc := docSaved, _from := .jstr "users/1", _to := .jstr "users/2" }

/-- C4: on a never-saved Edge, save() without both endpoints fails with the
must-specify ValueError; on a previously saved Edge, save() without
endpoint arguments does not succeed either: both default to None, the
exact-class test rejects None, and the types.StringType lookup in the elif
raises NameError (the types module is never imported), so the stored
endpoint ids are never reused. No request is issued in either case. -/
theorem C4_edge_save_endpoint_requirements
    (c : Collection) (e : EdgeDoc) (edgeArgs : Store) (resp : HttpResp) (u : String) :
    (e.doc.URL = none →
      edgeSave c e .noneV .noneV edgeArgs resp =
        (e, some (.valueError
          "The first time you save an Edge you must specify the 'from' and 'to' vertices"),
         [])) ∧
    (e.doc.URL = some u →
      edgeSave c e .noneV .noneV edgeArgs resp =
        (e, some (.nameError "name 'types' is not defined"), [])) := by
  constructor <;> intro h <;> unfold edgeSave <;>
    simp [h, Vertice.isNoneV, resolveVertice]

/-- C4 witness: the concrete never-saved and previously saved edges. -/
theorem C4_witness :
    ((edgeNew.doc.URL = none →
      edgeSave collOff edgeNew .noneV .noneV [] respCreated =
        (edgeNew, some (.valueError
          "The first time you save an Edge you must specify the 'from' and 'to' vertices"),
         [])) ∧
     (edgeNew.doc.URL = some "http://db/_api/document/users/1" →
      edgeSave collOff edgeNew .noneV .noneV [] respCreated =
        (edgeNew, some (.nameError "name 'types' is not defined"), []))) ∧
    ((edgeSaved.doc.URL = none →
      edgeSave collOff edgeSaved .noneV .noneV [] respCreated =
        (edgeSaved, some (.valueError
          "The first time you save an Edge you must specify the 'from' and 'to' vertices"),
         [])) ∧
     (edgeSaved.doc.URL = some "http://db/_api/document/users/1" →
      edgeSave collOff edgeSaved .noneV .noneV [] respCreated =
        (edgeSaved, some (.nameError "name 'types' is not defined"), []))) :=
  ⟨C4_edge_save_endpoint_requirements collOff edgeNew [] respCreated
      "http://db/_api/document/users/1",
   C4_edge_save_endpoint_requirements collOff edgeSaved [] respCreated
      "http://db/_api/document/users/1"⟩

/-! ### C5: set followed by save -/

theorem setPrivates_frame (d : Doc) (fd : Store) :
    (setPrivates d fd).1.documentsURL = d.documentsURL ∧
    (setPrivates d fd).1._store = d._store ∧
    (setPrivates d fd).1._patchStore = d._patchStore ∧
    (setPrivates d fd).1.modified = d.modified := by
  unfold setPrivates
  repeat' split
  all_goals exact ⟨rfl, rfl, rfl, rfl⟩

theorem set_on_set_off (c : Collection) (d : Doc) (fd : Store)
    (hset : c.on_set = false) :
    (set c d fd).1.modified = d.modified ∧ (set c d fd).2.2 = none := by
  unfold set
  simp [hset, (setPrivates_frame d fd).2.2.2]

theorem save_not_modified (c : Collection) (d : Doc) (docArgs : Store)
    (resp : HttpResp) (hm : d.modified = false) :
    save c d docArgs resp = (d, none, []) := by
  unfold save
  simp [hm]

/-- C5 (amended): set never makes the modified flag false; it leaves it
unchanged when on_set is disabled (and sets it when on_set assigns fields).
Hence set followed by save issues no HTTP request exactly in configurations
where the flag is false after set: in particular whenever the flag was
false before the call and on_set validation is disabled. -/
theorem C5_set_then_save_noop_when_unmodified_and_on_set_off
    (c : Collection) (d : Doc) (fieldDict docArgs : Store) (resp : HttpResp)
    (hset : c.on_set = false) (hm : d.modified = false) :
    (set c d fieldDict).1.modified = false ∧
    (set c d fieldDict).2.2 = none ∧
    save c (set c d fieldDict).1 docArgs resp = ((set c d fieldDict).1, none, []) := by
  have h1 := set_on_set_off c d fieldDict hset
  have h2 : (set c d fieldDict).1.modified = false := h1.1.trans hm
  exact ⟨h2, h1.2, save_not_modified c _ docArgs resp h2⟩

/-- C5 witness: a persisted unmodified document receiving a server-style
field dict in a collection with on_set disabled. -/
theorem C5_witness :
    (set collOff docSaved [("_id", JValue.jstr "users/1"), ("_rev", JValue.jstr "r2"),
        ("_key", JValue.jstr "1"), ("name", JValue.jstr "b")]).1.modified = false ∧
    (set collOff docSaved [("_id", JValue.jstr "users/1"), ("_rev", JValue.jstr "r2"),
        ("_key", JValue.jstr "1"), ("name", JValue.jstr "b")]).2.2 = none ∧
    save collOff (set collOff docSaved [("_id", JValue.jstr "users/1"),
        ("_rev", JValue.jstr "r2"), ("_key", JValue.jstr "1"),
        ("name", JValue.jstr "b")]).1 [] respCreated =
      ((set collOff docSaved [("_id", JValue.jstr "users/1"), ("_rev", JValue.jstr "r2"),
        ("_key", JValue.jstr "1"), ("name", JValue.jstr "b")]).1, none, []) :=
  C5_set_then_save_noop_when_unmodified_and_on_set_off collOff docSaved
    [("_id", JValue.jstr "users/1"), ("_rev", JValue.jstr "r2"),
     ("_key", JValue.jstr "1"), ("name", JValue.jstr "b")] [] respCreated
    (by decide) (by decide)

/-- C5 counterexample: with on_set validation enabled, set of a
server-response dict assigns the remaining fields through __setitem__ and
so sets modified; the following save issues a PUT, an HTTP call, refuting
the claim for that validation configuration. -/
theorem C5_counterexample_on_set_triggers_put :
    (set collOnSet docSaved [("_id", JValue.jstr "users/1"), ("_rev", JValue.jstr "r2"),
        ("_key", JValue.jstr "1"), ("name", JValue.jstr "b")]).1.modified = true ∧
    (save collOnSet (set collOnSet docSaved [("_id", JValue.jstr "users/1"),
        ("_rev", JValue.jstr "r2"), ("_key", JValue.jstr "1"),
        ("name", JValue.jstr "b")]).1 [] respCreated).2.2 ≠ [] := by
  decide

/-! ### C6: delete -/

theorem reset_empty (c : Collection) (d : Doc) :
    reset c d [] =
      ({ documentsURL := c.documentsURL, _store := [], _patchStore := [],
         _id := .jnull, _rev := .jnull, _key := .jnull, URL := none,
         modified := true }, [], none) := by
  unfold reset set setPrivates
  cases hc : c.on_set <;>
    simp [hc, storeGet, setFieldsValidated, storeUpdate]

/-- C6: delete on a never-saved document raises a DeletionError and issues
no HTTP request; on a saved document, the DELETE request is issued, and a
successful response resets resource id, revision and key to null (URL to
None) and sets modified, while a failed response (non-200/202 status or a
truthy error flag) raises a DeletionError carrying the server message and
leaves the document exactly as it was. -/
theorem C6_delete_resets_only_on_success
    (c : Collection) (d : Doc) (resp : HttpResp) (u : String) (ev mv : JValue) :
    (d.URL = none →
      delete c d resp =
        (d, some (.deletionError "Can't delete a document that was not saved"), [])) ∧
    (d.URL = some u →
      (((resp.status = 200 ∨ resp.status = 202) ∧
          storeGet resp.body "error" = some ev ∧ truthy ev = false) →
        delete c d resp =
          ({ documentsURL := c.documentsURL, _store := [], _patchStore := [],
             _id := .jnull, _rev := .jnull, _key := .jnull, URL := none,
             modified := true }, none, [⟨.deleteVerb, u, [], []⟩])) ∧
      ((((resp.status ≠ 200 ∧ resp.status ≠ 202) ∨
          (storeGet resp.body "error" = some ev ∧ truthy ev = true)) ∧
          storeGet resp.body "errorMessage" = some mv) →
        delete c d resp =
          (d, some (.deletionError (pyStr mv)), [⟨.deleteVerb, u, [], []⟩]))) := by
  constructor
  · intro h
    unfold delete
    simp [h]
  · intro h
    constructor
    · rintro ⟨hst, herr, hev⟩
      have hfail : deleteFailed resp = .ok false := by
        unfold deleteFailed
        rcases hst with h2 | h2 <;> simp [h2, herr, hev]
      unfold delete
      simp [h, hfail, reset_empty]
    · rintro ⟨hbad, hmsg⟩
      have hfail : deleteFailed resp = .ok true := by
        unfold deleteFailed
        rcases hbad with ⟨h2, h3⟩ | ⟨h2, h3⟩
        · simp [h2, h3]
        · by_cases h200 : resp.status = 200 <;> by_cases h202 : resp.status = 202 <;>
            simp [h200, h202, h2, h3]
      unfold delete
      simp [h, hfail, errorMessageOf, hmsg]

/-- C6 witness: a saved document with a successful delete exchange, and the
same document with a failing exchange, plus a never-saved document. -/
theorem C6_witness :
    ((docSaved.URL = none →
      delete collOff docSaved respDeleted =
        (docSaved, some (.deletionError "Can't delete a document that was not saved"), [])) ∧
     (docSaved.URL = some "http://db/_api/document/users/1" →
      (((respDeleted.status = 200 ∨ respDeleted.status = 202) ∧
          storeGet respDeleted.body "error" = some (JValue.jbool false) ∧
          truthy (JValue.jbool false) = false) →
        delete collOff docSaved respDeleted =
          ({ documentsURL := collOff.documentsURL, _store := [], _patchStore := [],
             _id := .jnull, _rev := .jnull, _key := .jnull, URL := none,
             modified := true }, none,
           [⟨.deleteVerb, "http://db/_api/document/users/1", [], []⟩])) ∧
      ((((respDeleted.status ≠ 200 ∧ respDeleted.status ≠ 202) ∨
          (storeGet respDeleted.body "error" = some (JValue.jbool false) ∧
           truthy (JValue.jbool false) = true)) ∧
          storeGet respDeleted.body "errorMessage" = some JValue.jnull) →
        delete collOff docSaved respDeleted =
          (docSaved, some (.deletionError (pyStr JValue.jnull)),
           [⟨.deleteVerb, "http://db/_api/document/users/1", [], []⟩])))) ∧
    ((docNew.URL = none →
      delete collOff docNew respFailed =
        (docNew, some (.deletionError "Can't delete a document that was not saved"), [])) ∧
     (docNew.URL = some "http://db/_api/document/users/1" →
      (((respFailed.status = 200 ∨ respFailed.status = 202) ∧
          storeGet respFailed.body "error" = some (JValue.jbool true) ∧
          truthy (JValue.jbool true) = false) →
        delete collOff docNew respFailed =
          ({ documentsURL := collOff.documentsURL, _store := [], _patchStore := [],
             _id := .jnull, _rev := .jnull, _key := .jnull, URL := none,
             modified := true }, none,
           [⟨.deleteVerb, "http://db/_api/document/users/1", [], []⟩])) ∧
      ((((respFailed.status ≠ 200 ∧ respFailed.status ≠ 202) ∨
          (storeGet respFailed.body "error" = some (JValue.jbool true) ∧
           truthy (JValue.jbool true) = true)) ∧
          storeGet respFailed.body "errorMessage" = some (JValue.jstr "conflict")) →
        delete collOff docNew respFailed =
          (docNew, some (.deletionError (pyStr (JValue.jstr "conflict"))),
           [⟨.deleteVerb, "http://db/_api/document/users/1", [], []⟩])))) :=
  ⟨C6_delete_resets_only_on_success collOff docSaved respDeleted
      "http://db/_api/document/users/1" (JValue.jbool false) JValue.jnull,
   C6_delete_resets_only_on_success collOff docNew respFailed
      "http://db/_api/document/users/1" (JValue.jbool true) (JValue.jstr "conflict")⟩

/-! ### C7: identity attributes all unset or all set -/

/-- The reserved identity keys carry non-null values in this dict whenever
they are present. -/
def goodDict (fd : Store) : Prop :=
  storeGet fd "_id" ≠ some .jnull ∧ storeGet fd "_rev" ≠ some .jnull ∧
  storeGet fd "_key" ≠ some .jnull

instance (fd : Store) : Decidable (goodDict fd) := by
  unfold goodDict
  infer_instance

/-- The claimed invariant: identity attributes all unset (null) with no
URL, or all set with a URL. -/
def idInv (d : Doc) : Prop :=
  (d._id = .jnull ∧ d._rev = .jnull ∧ d._key = .jnull ∧ d.URL = none) ∨
  (d._id ≠ .jnull ∧ d._rev ≠ .jnull ∧ d._key ≠ .jnull ∧ d.URL ≠ none)

instance (d : Doc) : Decidable (idInv d) := by
  unfold idInv
  infer_instance

theorem idInv_of_fields {d d2 : Doc} (h1 : d2._id = d._id) (h2 : d2._rev = d._rev)
    (h3 : d2._key = d._key) (h4 : d2.URL = d.URL) (h : idInv d) : idInv d2 := by
  unfold idInv at h ⊢
  rw [h1, h2, h3, h4]
  exact h

theorem setPrivates_idInv (d : Doc) (fd : Store) (hfd : goodDict fd) :
    idInv (setPrivates d fd).1 := by
  obtain ⟨h1, h2, h3⟩ := hfd
  unfold setPrivates
  cases hid : storeGet fd "_id" with
  | none => exact Or.inl ⟨rfl, rfl, rfl, rfl⟩
  | some vid =>
      cases hrev : storeGet (storeDel fd "_id") "_rev" with
      | none => exact Or.inl ⟨rfl, rfl, rfl, rfl⟩
      | some vrev =>
          cases hkey : storeGet (storeDel (storeDel fd "_id") "_rev") "_key" with
          | none => exact Or.inl ⟨rfl, rfl, rfl, rfl⟩
          | some vkey =>
              dsimp only
              refine Or.inr ⟨?_, ?_, ?_, by simp⟩
              · intro hh
                dsimp only at hh
                rw [hh] at hid
                exact h1 hid
              · intro hh
                dsimp only at hh
                rw [hh] at hrev
                rw [storeGet_storeDel_ne fd "_rev" "_id" (by decide)] at hrev
                exact h2 hrev
              · intro hh
                dsimp only at hh
                rw [hh] at hkey
                rw [storeGet_storeDel_ne _ "_key" "_rev" (by decide),
                    storeGet_storeDel_ne _ "_key" "_id" (by decide)] at hkey
                exact h3 hkey

theorem setitem_id_frame (c : Collection) (d : Doc) (k : String) (v : JValue) :
    (setitem c d k v).1._id = d._id ∧ (setitem c d k v).1._rev = d._rev ∧
    (setitem c d k v).1._key = d._key ∧ (setitem c d k v).1.URL = d.URL := by
  unfold setitem
  cases hc : c.on_set <;> simp [hc]
  cases hv : c.validateField k v <;> simp [hv]

theorem setFieldsValidated_id_frame (c : Collection) (d : Doc)
    (kvs : List (String × JValue)) :
    (setFieldsValidated c d kvs).1._id = d._id ∧
    (setFieldsValidated c d kvs).1._rev = d._rev ∧
    (setFieldsValidated c d kvs).1._key = d._key ∧
    (setFieldsValidated c d kvs).1.URL = d.URL := by
  induction kvs generalizing d with
  | nil => simp [setFieldsValidated]
  | cons kv rest ih =>
      obtain ⟨k, v⟩ := kv
      have hs := setitem_id_frame c d k v
      cases he : setitem c d k v with
      | mk d2 err =>
        rw [he] at hs
        cases err with
        | none =>
            have ihd := ih d2
            simp only [setFieldsValidated, he]
            exact ⟨ihd.1.trans hs.1, ihd.2.1.trans hs.2.1, ihd.2.2.1.trans hs.2.2.1,
                   ihd.2.2.2.trans hs.2.2.2⟩
        | some e => simpa [setFieldsValidated, he] using hs

theorem set_idInv (c : Collection) (d : Doc) (fd : Store) (hfd : goodDict fd) :
    idInv (set c d fd).1 := by
  have hp := setPrivates_idInv d fd hfd
  unfold set
  cases hc : c.on_set <;> simp [hc]
  · exact idInv_of_fields rfl rfl rfl rfl hp
  · have hf := setFieldsValidated_id_frame c (setPrivates d fd).1 (setPrivates d fd).2
    exact idInv_of_fields hf.1 hf.2.1 hf.2.2.1 hf.2.2.2 hp

theorem reset_idInv (c : Collection) (d : Doc) (fd : Store) (hfd : goodDict fd) :
    idInv (reset c d fd).1 := by
  have hs := set_idInv c
    { d with documentsURL := c.documentsURL, _store := [], _patchStore := [] } fd hfd
  unfold reset
  cases hr : (set c
      { d with documentsURL := c.documentsURL, _store := [], _patchStore := [] } fd).2.2 <;>
    simp [hr]
  · exact idInv_of_fields rfl rfl rfl rfl hs
  · exact hs

theorem newDoc_idInv (c : Collection) (fd : Store) (hfd : goodDict fd) :
    idInv (newDoc c fd).1 :=
  reset_idInv c _ fd hfd

theorem save_idInv (c : Collection) (d : Doc) (docArgs : Store) (resp : HttpResp)
    (hd : idInv d) (hresp : goodDict resp.body) :
    idInv (save c d docArgs resp).1 := by
  unfold save
  cases hm : d.modified <;> simp [hm]
  · exact hd
  · cases hs : c.on_save <;> simp [hs]
    · cases hu : d.URL with
      | none =>
          simp only [hu]
          cases hok : respOk201 resp with
          | error e => simp [hok]; exact hd
          | ok b =>
              cases b <;> simp [hok]
              · cases hem : errorMessageOf resp <;> simp [hem] <;> exact hd
              · exact idInv_of_fields rfl rfl rfl rfl
                  (setPrivates_idInv d resp.body hresp)
      | some u =>
          simp only [hu]
          cases hok : respOk201 resp with
          | error e => simp [hok]; exact hd
          | ok b =>
              cases b <;> simp [hok]
              · cases hem : errorMessageOf resp <;> simp [hem] <;> exact hd
              · cases hrv : storeGet resp.body "_rev" with
                | none => simp [hrv]; exact hd
                | some rv =>
                    simp [hrv]
                    rcases hd with ⟨h1, h2, h3, h4⟩ | ⟨h1, h2, h3, h4⟩
                    · rw [hu] at h4; exact absurd h4 (by simp)
                    · refine Or.inr ⟨h1, ?_, h3, by simp [hu]⟩
                      intro hh
                      dsimp only at hh
                      rw [hh] at hrv
                      exact hresp.2.1 hrv
    · exact hd

theorem forceSave_idInv (c : Collection) (d : Doc) (docArgs : Store) (resp : HttpResp)
    (hd : idInv d) (hresp : goodDict resp.body) :
    idInv (forceSave c d docArgs resp).1 :=
  save_idInv c { d with modified := true } docArgs resp
    (idInv_of_fields rfl rfl rfl rfl hd) hresp

theorem saveCopy_idInv (c : Collection) (d : Doc) (resp : HttpResp)
    (hresp : goodDict resp.body) :
    idInv (saveCopy c d resp).1 := by
  have hfresh : idInv
      ({ documentsURL := c.documentsURL, _store := [], _patchStore := [],
         _id := .jnull, _rev := .jnull, _key := .jnull, URL := none,
         modified := true } : Doc) := Or.inl ⟨rfl, rfl, rfl, rfl⟩
  have hsave := save_idInv c
    { documentsURL := c.documentsURL, _store := [], _patchStore := [],
      _id := .jnull, _rev := .jnull, _key := .jnull, URL := none, modified := true }
    [] resp hfresh hresp
  unfold saveCopy
  rw [reset_empty]
  simp only
  cases hs : (save c
      { documentsURL := c.documentsURL, _store := [], _patchStore := [],
        _id := .jnull, _rev := .jnull, _key := .jnull, URL := none, modified := true }
      [] resp).2.1 <;> simp [hs] <;> exact hsave

theorem patch_idInv (c : Collection) (d : Doc) (keepNull : Bool) (docArgs : Store)
    (resp : HttpResp) (hd : idInv d) (hresp : goodDict resp.body) :
    idInv (patch c d keepNull docArgs resp).1 := by
  unfold patch
  cases hs : c.on_save <;> simp [hs]
  · cases hu : d.URL with
    | none => simp [hu]; exact hd
    | some u =>
        simp only [hu]
        by_cases hl : 0 < d._patchStore.length <;> simp [hl]
        · cases hok : respOk201 resp with
          | error e => simp [hok]; exact hd
          | ok b =>
              cases b <;> simp [hok]
              · cases hem : errorMessageOf resp <;> simp [hem] <;> exact hd
              · cases hrv : storeGet resp.body "_rev" with
                | none => simp [hrv]; exact hd
                | some rv =>
                    simp [hrv]
                    rcases hd with ⟨h1, h2, h3, h4⟩ | ⟨h1, h2, h3, h4⟩
                    · rw [hu] at h4; exact absurd h4 (by simp)
                    · refine Or.inr ⟨h1, ?_, h3, by simp [hu]⟩
                      intro hh
                      dsimp only at hh
                      rw [hh] at hrv
                      exact hresp.2.1 hrv
        · exact hd
  · exact hd

theorem delete_idInv (c : Collection) (d : Doc) (resp : HttpResp) (hd : idInv d) :
    idInv (delete c d resp).1 := by
  unfold delete
  cases hu : d.URL with
  | none => simp [hu]; exact hd
  | some u =>
      simp only [hu]
      cases hf : deleteFailed resp with
      | error e => simp [hf]; exact hd
      | ok b =>
          cases b <;> simp [hf]
          · rw [reset_empty]
            exact Or.inl ⟨rfl, rfl, rfl, rfl⟩
          · cases hem : errorMessageOf resp <;> simp [hem] <;> exact hd

/-- C7 (amended): provided every dictionary handed to the object gives
non-null values to the reserved identity keys it contains (set/reset inputs
and the server response body), every operation preserves the invariant that
_id, _rev and _key are all null with URL None, or all non-null with URL
set; without that proviso the invariant can be broken (see the
counterexample). -/
theorem C7_identity_attributes_all_or_none
    (c : Collection) (d : Doc) (fd docArgs : Store) (k : String) (v : JValue)
    (keepNull : Bool) (resp : HttpResp)
    (hd : idInv d) (hfd : goodDict fd) (hresp : goodDict resp.body) :
    idInv (newDoc c fd).1 ∧
    idInv (reset c d fd).1 ∧
    idInv (set c d fd).1 ∧
    idInv (setitem c d k v).1 ∧
    idInv (save c d docArgs resp).1 ∧
    idInv (forceSave c d docArgs resp).1 ∧
    idInv (saveCopy c d resp).1 ∧
    idInv (patch c d keepNull docArgs resp).1 ∧
    idInv (delete c d resp).1 := by
  have hsi := setitem_id_frame c d k v
  exact ⟨newDoc_idInv c fd hfd, reset_idInv c d fd hfd, set_idInv c d fd hfd,
    idInv_of_fields hsi.1 hsi.2.1 hsi.2.2.1 hsi.2.2.2 hd,
    save_idInv c d docArgs resp hd hresp,
    forceSave_idInv c d docArgs resp hd hresp,
    saveCopy_idInv c d resp hresp,
    patch_idInv c d keepNull docArgs resp hd hresp,
    delete_idInv c d resp hd⟩

/-- C7 witness: a persisted document, a server-style field dict and a
successful create response. -/
theorem C7_witness :
    idInv docSaved ∧
    goodDict [("_id", JValue.jstr "users/1"), ("_rev", JValue.jstr "r2"),
      ("_key", JValue.jstr "1"), ("name", JValue.jstr "b")] ∧
    goodDict respCreated.body ∧
    (idInv (newDoc collOff [("_id", JValue.jstr "users/1"), ("_rev", JValue.jstr "r2"),
        ("_key", JValue.jstr "1"), ("name", JValue.jstr "b")]).1 ∧
     idInv (reset collOff docSaved [("_id", JValue.jstr "users/1"),
        ("_rev", JValue.jstr "r2"), ("_key", JValue.jstr "1"),
        ("name", JValue.jstr "b")]).1 ∧
     idInv (set collOff docSaved [("_id", JValue.jstr "users/1"),
        ("_rev", JValue.jstr "r2"), ("_key", JValue.jstr "1"),
        ("name", JValue.jstr "b")]).1 ∧
     idInv (setitem collOff docSaved "age" (JValue.jnum 5)).1 ∧
     idInv (save collOff docSaved [] respCreated).1 ∧
     idInv (forceSave collOff docSaved [] respCreated).1 ∧
     idInv (saveCopy collOff docSaved respCreated).1 ∧
     idInv (patch collOff docSaved true [] respCreated).1 ∧
     idInv (delete collOff docSaved respCreated).1) :=
  ⟨by decide, by decide, by decide,
   C7_identity_attributes_all_or_none collOff docSaved
     [("_id", JValue.jstr "users/1"), ("_rev", JValue.jstr "r2"),
      ("_key", JValue.jstr "1"), ("name", JValue.jstr "b")] [] "age" (JValue.jnum 5)
     true respCreated (by decide) (by decide) (by decide)⟩

/-- C7 counterexample: constructing a document from a dict whose reserved
keys are present but hold null breaks the claimed invariant: _id stays null
while _rev and _key are set and the URL is derived from the null id. -/
theorem C7_counterexample_null_id :
    ¬ idInv (newDoc collOff [("_id", JValue.jnull), ("_rev", JValue.jstr "r"),
        ("_key", JValue.jstr "k")]).1 ∧
    (newDoc collOff [("_id", JValue.jnull), ("_rev", JValue.jstr "r"),
        ("_key", JValue.jstr "k")]).1._id = JValue.jnull ∧
    (newDoc collOff [("_id", JValue.jnull), ("_rev", JValue.jstr "r"),
        ("_key", JValue.jstr "k")]).1._rev = JValue.jstr "r" ∧
    (newDoc collOff [("_id", JValue.jnull), ("_rev", JValue.jstr "r"),
        ("_key", JValue.jstr "k")]).1.URL = some "http://db/_api/document/None" := by
  decide

/-! ### C8: saveCopy -/

theorem setPrivates_success (d : Doc) (fd : Store) (idv revv keyv : JValue)
    (hid : storeGet fd "_id" = some idv)
    (hrev : storeGet (storeDel fd "_id") "_rev" = some revv)
    (hkey : storeGet (storeDel (storeDel fd "_id") "_rev") "_key" = some keyv) :
    setPrivates d fd =
      ({ d with _id := idv, _rev := revv, _key := keyv,
                URL := some (d.documentsURL ++ "/" ++ pyStr idv) },
       storeDel (storeDel (storeDel fd "_id") "_rev") "_key") := by
  unfold setPrivates
  simp [hid, hrev, hkey]

theorem save_create_success (c : Collection) (d : Doc) (docArgs : Store)
    (resp : HttpResp)
    (hm : d.modified = true) (hs : c.on_save = false) (hu : d.URL = none)
    (hok : respOk201 resp = .ok true) :
    save c d docArgs resp =
      ({ (setPrivates d resp.body).1 with modified := false }, none,
       [⟨.post, d.documentsURL, storeSet docArgs "collection" (.jstr c.name),
         d._store⟩]) := by
  unfold save
  simp [hm, hs, hu, hok]

/-- C8 (amended): when on_save validation is disabled and the server
accepts the create request, saveCopy resets the document to a fresh
unsaved state discarding every field value, POSTs the now-empty store as a
new resource to the documents endpoint, adopts the identity the response
carries, and returns the pair (old key, new key). -/
theorem C8_saveCopy_discards_fields_and_returns_key_pair
    (c : Collection) (d : Doc) (resp : HttpResp) (ev idv revv keyv : JValue)
    (hsave : c.on_save = false)
    (hst : resp.status = 201 ∨ resp.status = 202)
    (herr : storeGet resp.body "error" = some ev) (hev : truthy ev = false)
    (hid : storeGet resp.body "_id" = some idv)
    (hrev : storeGet (storeDel resp.body "_id") "_rev" = some revv)
    (hkey : storeGet (storeDel (storeDel resp.body "_id") "_rev") "_key" = some keyv) :
    saveCopy c d resp =
      ({ documentsURL := c.documentsURL, _store := [], _patchStore := [],
         _id := idv, _rev := revv, _key := keyv,
         URL := some (c.documentsURL ++ "/" ++ pyStr idv), modified := false },
       none,
       [⟨.post, c.documentsURL, [("collection", .jstr c.name)], []⟩],
       some (d._key, keyv)) := by
  have hok : respOk201 resp = .ok true := by
    unfold respOk201
    rcases hst with h | h <;> simp [h, herr, hev]
  unfold saveCopy
  rw [reset_empty]
  simp only
  rw [save_create_success c _ [] resp rfl hsave rfl hok,
      setPrivates_success _ resp.body idv revv keyv hid hrev hkey]
  simp [storeSet]

/-- C8 witness: a persisted document, a permissive collection and a
successful create response. -/
theorem C8_witness :
    saveCopy collOff docSaved respCreated =
      ({ documentsURL := collOff.documentsURL, _store := [], _patchStore := [],
         _id := JValue.jstr "users/2", _rev := JValue.jstr "r2",
         _key := JValue.jstr "2",
         URL := some (collOff.documentsURL ++ "/" ++ pyStr (JValue.jstr "users/2")),
         modified := false },
       none,
       [⟨.post, collOff.documentsURL, [("collection", .jstr collOff.name)], []⟩],
       some (docSaved._key, JValue.jstr "2")) :=
  C8_saveCopy_discards_fields_and_returns_key_pair collOff docSaved respCreated
    (JValue.jbool false) (JValue.jstr "users/2") (JValue.jstr "r2") (JValue.jstr "2")
    (by decide) (by decide) (by decide) (by decide) (by decide) (by decide) (by decide)

/-- C8 counterexample: with on_save validation enabled, saveCopy on a
persisted document raises the TypeError from the misinvoked validate and
returns no key pair at all (while the reset has already discarded the
fields), so the claim does not hold for every persisted document. -/
theorem C8_counterexample_on_save_no_pair :
    (saveCopy collOnSave docSaved respCreated).2.1 = some validateCallError ∧
    (saveCopy collOnSave docSaved respCreated).2.2.2 = none ∧
    (saveCopy collOnSave docSaved respCreated).2.2.1 = [] := by
  decide

/-! ### C9: reserved-key extraction mutates the caller's dict -/

theorem not_mem_keys_storeDel_of_not_mem (l : Store) (k k2 : String)
    (h : k ∉ storeKeys l) : k ∉ storeKeys (storeDel l k2) :=
  fun hm => h (((storeDel_sublist l k2).map Prod.fst).subset hm)

theorem setitem_all_valid (c : Collection) (d : Doc) (k : String) (v : JValue)
    (hvalid : ∀ k2 v2, c.validateField k2 v2 = Except.ok ()) :
    setitem c d k v =
      ({ d with _store := storeSet d._store k v,
                _patchStore := if d.URL.isSome then storeSet d._patchStore k v
                               else d._patchStore,
                modified := true }, none) := by
  unfold setitem
  cases hc : c.on_set <;> simp [hc, hvalid k v]

theorem setFieldsValidated_store_all_valid (c : Collection) (d : Doc)
    (kvs : List (String × JValue))
    (hvalid : ∀ k2 v2, c.validateField k2 v2 = Except.ok ()) :
    (setFieldsValidated c d kvs).1._store = storeUpdate d._store kvs := by
  induction kvs generalizing d with
  | nil => simp [setFieldsValidated, storeUpdate]
  | cons kv rest ih =>
      obtain ⟨k, v⟩ := kv
      simp only [setFieldsValidated, setitem_all_valid c d k v hvalid]
      exact ih _

theorem set_store_and_dict (c : Collection) (d : Doc) (fd : Store)
    (hvalid : ∀ k2 v2, c.validateField k2 v2 = Except.ok ()) :
    (set c d fd).1._store = storeUpdate d._store (setPrivates d fd).2 ∧
    (set c d fd).2.1 = (setPrivates d fd).2 := by
  have hfr := (setPrivates_frame d fd).2.1
  unfold set
  cases hc : c.on_set <;> simp [hc]
  · rw [hfr]
  · rw [setFieldsValidated_store_all_valid c _ _ hvalid, hfr]

theorem setPrivates_dict_nodup (d : Doc) (fd : Store)
    (hnd : (storeKeys fd).Nodup) : (storeKeys (setPrivates d fd).2).Nodup := by
  unfold setPrivates
  cases storeGet fd "_id" with
  | none => exact hnd
  | some vid =>
      cases storeGet (storeDel fd "_id") "_rev" with
      | none => exact nodup_keys_storeDel fd "_id" hnd
      | some vrev =>
          cases storeGet (storeDel (storeDel fd "_id") "_rev") "_key" with
          | none => exact nodup_keys_storeDel _ "_rev" (nodup_keys_storeDel fd "_id" hnd)
          | some vkey =>
              exact nodup_keys_storeDel _ "_key"
                (nodup_keys_storeDel _ "_rev" (nodup_keys_storeDel fd "_id" hnd))

/-- C9: with an accepting field validator, set deletes the reserved keys
_id, _rev, _key from the caller's dict exactly when all three are present,
and then leaves the store untouched at those keys; when one is missing,
precisely the reserved keys processed before the first missing one (order
_id, _rev, _key) have been deleted; and every entry still in the dict after
the call, reserved keys included, has been written into the store. -/
theorem C9_set_mutates_callers_dict
    (c : Collection) (d : Doc) (fd : Store)
    (hnd : (storeKeys fd).Nodup)
    (hvalid : ∀ k2 v2, c.validateField k2 v2 = Except.ok ()) :
    ((∀ idv revv keyv : JValue,
      storeGet fd "_id" = some idv →
      storeGet (storeDel fd "_id") "_rev" = some revv →
      storeGet (storeDel (storeDel fd "_id") "_rev") "_key" = some keyv →
       (set c d fd).2.1 = storeDel (storeDel (storeDel fd "_id") "_rev") "_key" ∧
       storeGet (set c d fd).1._store "_id" = storeGet d._store "_id" ∧
       storeGet (set c d fd).1._store "_rev" = storeGet d._store "_rev" ∧
       storeGet (set c d fd).1._store "_key" = storeGet d._store "_key")) ∧
    (storeGet fd "_id" = none → (set c d fd).2.1 = fd) ∧
    (∀ idv : JValue, storeGet fd "_id" = some idv →
      storeGet (storeDel fd "_id") "_rev" = none →
      (set c d fd).2.1 = storeDel fd "_id") ∧
    (∀ idv revv : JValue, storeGet fd "_id" = some idv →
      storeGet (storeDel fd "_id") "_rev" = some revv →
      storeGet (storeDel (storeDel fd "_id") "_rev") "_key" = none →
      (set c d fd).2.1 = storeDel (storeDel fd "_id") "_rev") ∧
    (∀ (k : String) (v2 : JValue), storeGet (set c d fd).2.1 k = some v2 →
      storeGet (set c d fd).1._store k = some v2) := by
  have hsd := set_store_and_dict c d fd hvalid
  refine ⟨?_, ?_, ?_, ?_, ?_⟩
  · intro idv revv keyv hid hrev hkey
    have hsp := setPrivates_success d fd idv revv keyv hid hrev hkey
    have hid1 : "_id" ∉ storeKeys (storeDel (storeDel (storeDel fd "_id") "_rev") "_key") :=
      not_mem_keys_storeDel_of_not_mem _ _ _
        (not_mem_keys_storeDel_of_not_mem _ _ _ (not_mem_keys_storeDel fd "_id" hnd))
    have hrev1 : "_rev" ∉ storeKeys (storeDel (storeDel (storeDel fd "_id") "_rev") "_key") :=
      not_mem_keys_storeDel_of_not_mem _ _ _
        (not_mem_keys_storeDel _ "_rev" (nodup_keys_storeDel fd "_id" hnd))
    have hkey1 : "_key" ∉ storeKeys (storeDel (storeDel (storeDel fd "_id") "_rev") "_key") :=
      not_mem_keys_storeDel _ "_key"
        (nodup_keys_storeDel _ "_rev" (nodup_keys_storeDel fd "_id" hnd))
    refine ⟨hsd.2.trans (by rw [hsp]), ?_, ?_, ?_⟩
    · rw [hsd.1, hsp]
      exact storeGet_storeUpdate_not_mem _ _ _ hid1
    · rw [hsd.1, hsp]
      exact storeGet_storeUpdate_not_mem _ _ _ hrev1
    · rw [hsd.1, hsp]
      exact storeGet_storeUpdate_not_mem _ _ _ hkey1
  · intro hid
    rw [hsd.2]
    unfold setPrivates
    simp [hid]
  · intro idv hid hrev
    rw [hsd.2]
    unfold setPrivates
    simp [hid, hrev]
  · intro idv revv hid hrev hkey
    rw [hsd.2]
    unfold setPrivates
    simp [hid, hrev, hkey]
  · intro k v2 hget
    rw [hsd.2] at hget
    rw [hsd.1]
    exact storeGet_storeUpdate_mem _ _ _ _ (setPrivates_dict_nodup d fd hnd) hget

/-- C9 witness: a dict holding all three reserved keys plus an ordinary
field, and the accepting validator of the concrete collection. -/
theorem C9_witness :
    ((∀ idv revv keyv : JValue,
      storeGet [("_id", JValue.jstr "users/9"), ("_rev", JValue.jstr "r9"),
        ("_key", JValue.jstr "9"), ("name", JValue.jstr "z")] "_id" = some idv →
      storeGet (storeDel [("_id", JValue.jstr "users/9"), ("_rev", JValue.jstr "r9"),
        ("_key", JValue.jstr "9"), ("name", JValue.jstr "z")] "_id") "_rev" = some revv →
      storeGet (storeDel (storeDel [("_id", JValue.jstr "users/9"),
        ("_rev", JValue.jstr "r9"), ("_key", JValue.jstr "9"),
        ("name", JValue.jstr "z")] "_id") "_rev") "_key" = some keyv →
       (set collOff docNew [("_id", JValue.jstr "users/9"), ("_rev", JValue.jstr "r9"),
          ("_key", JValue.jstr "9"), ("name", JValue.jstr "z")]).2.1 =
         storeDel (storeDel (storeDel [("_id", JValue.jstr "users/9"),
           ("_rev", JValue.jstr "r9"), ("_key", JValue.jstr "9"),
           ("name", JValue.jstr "z")] "_id") "_rev") "_key" ∧
       storeGet (set collOff docNew [("_id", JValue.jstr "users/9"),
          ("_rev", JValue.jstr "r9"), ("_key", JValue.jstr "9"),
          ("name", JValue.jstr "z")]).1._store "_id" = storeGet docNew._store "_id" ∧
       storeGet (set collOff docNew [("_id", JValue.jstr "users/9"),
          ("_rev", JValue.jstr "r9"), ("_key", JValue.jstr "9"),
          ("name", JValue.jstr "z")]).1._store "_rev" = storeGet docNew._store "_rev" ∧
       storeGet (set collOff docNew [("_id", JValue.jstr "users/9"),
          ("_rev", JValue.jstr "r9"), ("_key", JValue.jstr "9"),
          ("name", JValue.jstr "z")]).1._store "_key" = storeGet docNew._store "_key")) ∧
    (storeGet [("_id", JValue.jstr "users/9"), ("_rev", JValue.jstr "r9"),
       ("_key", JValue.jstr "9"), ("name", JValue.jstr "z")] "_id" = none →
      (set collOff docNew [("_id", JValue.jstr "users/9"), ("_rev", JValue.jstr "r9"),
        ("_key", JValue.jstr "9"), ("name", JValue.jstr "z")]).2.1 =
      [("_id", JValue.jstr "users/9"), ("_rev", JValue.jstr "r9"),
       ("_key", JValue.jstr "9"), ("name", JValue.jstr "z")]) ∧
    (∀ idv : JValue, storeGet [("_id", JValue.jstr "users/9"), ("_rev", JValue.jstr "r9"),
        ("_key", JValue.jstr "9"), ("name", JValue.jstr "z")] "_id" = some idv →
      storeGet (storeDel [("_id", JValue.jstr "users/9"), ("_rev", JValue.jstr "r9"),
        ("_key", JValue.jstr "9"), ("name", JValue.jstr "z")] "_id") "_rev" = none →
      (set collOff docNew [("_id", JValue.jstr "users/9"), ("_rev", JValue.jstr "r9"),
        ("_key", JValue.jstr "9"), ("name", JValue.jstr "z")]).2.1 =
      storeDel [("_id", JValue.jstr "users/9"), ("_rev", JValue.jstr "r9"),
        ("_key", JValue.jstr "9"), ("name", JValue.jstr "z")] "_id") ∧
    (∀ idv revv : JValue,
      storeGet [("_id", JValue.jstr "users/9"), ("_rev", JValue.jstr "r9"),
        ("_key", JValue.jstr "9"), ("name", JValue.jstr "z")] "_id" = some idv →
      storeGet (storeDel [("_id", JValue.jstr "users/9"), ("_rev", JValue.jstr "r9"),
        ("_key", JValue.jstr "9"), ("name", JValue.jstr "z")] "_id") "_rev" = some revv →
      storeGet (storeDel (storeDel [("_id", JValue.jstr "users/9"),
        ("_rev", JValue.jstr "r9"), ("_key", JValue.jstr "9"),
        ("name", JValue.jstr "z")] "_id") "_rev") "_key" = none →
      (set collOff docNew [("_id", JValue.jstr "users/9"), ("_rev", JValue.jstr "r9"),
        ("_key", JValue.jstr "9"), ("name", JValue.jstr "z")]).2.1 =
      storeDel (storeDel [("_id", JValue.jstr "users/9"), ("_rev", JValue.jstr "r9"),
        ("_key", JValue.jstr "9"), ("name", JValue.jstr "z")] "_id") "_rev") ∧
    (∀ (k : String) (v2 : JValue),
      storeGet (set collOff docNew [("_id", JValue.jstr "users/9"),
        ("_rev", JValue.jstr "r9"), ("_key", JValue.jstr "9"),
        ("name", JValue.jstr "z")]).2.1 k = some v2 →
      storeGet (set collOff docNew [("_id", JValue.jstr "users/9"),
        ("_rev", JValue.jstr "r9"), ("_key", JValue.jstr "9"),
        ("name", JValue.jstr "z")]).1._store k = some v2) :=
  C9_set_mutates_callers_dict collOff docNew
    [("_id", JValue.jstr "users/9"), ("_rev", JValue.jstr "r9"),
     ("_key", JValue.jstr "9"), ("name", JValue.jstr "z")]
    (by decide) (fun _ _ => rfl)

/-! ### C10: links on an already-saved edge -/

/-- C10: links on an already-persisted edge raises AttributeError before
saving either endpoint vertex: both vertices come back unchanged, the edge
is unchanged, and no HTTP request is issued. -/
theorem C10_links_on_saved_edge_changes_nothing
    (c cf ct : Collection) (e : EdgeDoc) (fv tv : Doc)
    (rf rt re2 : HttpResp) (edgeArgs : Store) (u : String)
    (h : e.doc.URL = some u) :
    links c e cf fv rf ct tv rt edgeArgs re2 =
      (e, fv, tv,
       some (.attributeError
         "It appears that the edge has already been saved. You can now use save() and patch()"),
       []) := by
  unfold links
  simp [h]

/-- C10 witness: a concrete saved edge and two concrete vertices. -/
theorem C10_witness :
    links collOff edgeSaved collOff docNew respCreated collOff docSaved respCreated
        [] respCreated =
      (edgeSaved, docNew, docSaved,
       some (.attributeError
         "It appears that the edge has already been saved. You can now use save() and patch()"),
       []) :=
  C10_links_on_saved_edge_changes_nothing collOff collOff collOff edgeSaved docNew
    docSaved respCreated respCreated respCreated []
    "http://db/_api/document/users/1" (by decide)

end PyArango
